import Mathlib

/-!
Shallow embedding of `src/vspyplugin/base.py` (Setsugennoao/vs-pyplugin):
the `PyPluginOptions` normalization rules, the `PyPlugin.__init__`
validation/broadcast logic, the `_stack_frame` helper and the six
dispatch branches of `PyPlugin.invoke`.

Pixel samples are modelled as rationals (the 0.5 chroma shift is exact);
a plane is a list of samples and a frame a list of planes.  The host
resize kernels (`resize.Point`/`resize.Bicubic`) are external to the
repository and enter the model as per-sample (resp. per-frame) parameter
functions.
-/

namespace VsPyPlugin

/-- `vs.SampleType`: INTEGER or FLOAT. -/
inductive SampleType
  | INTEGER
  | FLOAT
deriving DecidableEq, Repr

/-- The fields of `vs.VideoFormat` that `base.py` reads.  In VapourSynth a
format id is determined exactly by these descriptor fields, so format-id
comparison (`fmt.id != fmt2.id`) is modelled as equality of descriptors. -/
structure VideoFormat where
  sample_type : SampleType
  bits_per_sample : Nat
  subsampling_w : Nat
  subsampling_h : Nat
  num_planes : Nat
deriving DecidableEq, Repr

/-- `fmt.replace(sample_type=vs.FLOAT, bits_per_sample=bps)` (base.py line 49). -/
def VideoFormat.replaceFloat (f : VideoFormat) (bps : Nat) : VideoFormat :=
  { f with sample_type := .FLOAT, bits_per_sample := bps }

/-- One channel-plane: a flat list of samples. -/
abbrev Plane := List ℚ

/-- One decoded frame: its channel-planes in stored order. -/
abbrev Frame := List Plane

/-- A `vs.VideoNode`: a pixel format plus the frame data at each index. -/
structure VideoClip where
  format : VideoFormat
  frames : Nat → Frame

/-- The `float_processing` option: `False`, `True`, `16` or `32`
(base.py line 27). -/
inductive FloatProcessing
  | fpFalse
  | fpTrue
  | fp16
  | fp32
deriving DecidableEq, Repr

/-- Python truthiness of `float_processing` (`if self.float_processing:`). -/
def FloatProcessing.truthy : FloatProcessing → Bool
  | .fpFalse => false
  | _ => true

/-- `bps = 32 if self.float_processing is True else self.float_processing`
(base.py line 45); the value is only read when `float_processing` is truthy. -/
def FloatProcessing.bps : FloatProcessing → Nat
  | .fpFalse => 0
  | .fpTrue => 32
  | .fp16 => 16
  | .fp32 => 32

/-- `PyPluginOptions` (base.py lines 25-28). -/
structure PyPluginOptions where
  float_processing : FloatProcessing := .fpFalse
  shift_chroma : Bool := false

/-- The exceptions `base.py` can raise during session construction and
clip normalization (all are `ValueError`s in the source; the spec names
them `ConfigurationError`, `StreamCountError`, `SubsamplingError`). -/
inductive PyError
  | configuration
  | streamCount
  | subsamplingOutput
  | subsamplingInput (idx : ℤ)
  | indexErr
deriving DecidableEq, Repr

/-- `clip.std.Expr(['', 'x 0.5 +'])` (base.py line 60): expr `''` copies
plane 0 unchanged; `'x 0.5 +'` applies to plane 1 and, being the last
expression given, repeats for plane 2. -/
def exprShiftChroma (fr : Frame) : Frame :=
  fr.enum.map fun pi => if pi.1 = 0 then pi.2 else pi.2.map (fun x => x + (1 / 2 : ℚ))

/-- The `float_processing` stage of `norm_clip` (base.py lines 44-51): the
reassigned `clip` after the optional conversion to the float format.
`conv` is the per-sample action of the external `resize.Point` format
conversion (point resampling with `dither_type='none'` maps each sample
independently and preserves plane geometry). -/
def norm_clip_converted (conv : ℚ → ℚ) (o : PyPluginOptions) (clip : VideoClip) :
    VideoClip :=
  if o.float_processing.truthy then
    let bps := o.float_processing.bps
    if clip.format.sample_type ≠ .FLOAT ∨ clip.format.bits_per_sample ≠ bps then
      { format := clip.format.replaceFloat bps
        frames := fun n => (clip.frames n).map (List.map conv) }
    else clip
  else clip

/-- `PyPluginOptions.norm_clip` (base.py lines 38-62) on a non-None clip.
`fmt` is the format of the clip as passed in (line 42), read by every
later condition even after `clip` is reassigned. -/
def norm_clip (conv : ℚ → ℚ) (o : PyPluginOptions) (clip : VideoClip) :
    Except PyError VideoClip :=
  let fmt := clip.format
  let clip1 := norm_clip_converted conv o clip
  if o.shift_chroma then
    if fmt.sample_type ≠ .FLOAT ∧ o.float_processing.truthy = false then
      .error .configuration
    else if fmt.num_planes = 3 then
      .ok { clip1 with frames := fun n => exprShiftChroma (clip1.frames n) }
    else
      .ok clip1
  else
    .ok clip1

/-- `[self.options.norm_clip(clip) for clip in clips]` (base.py line 135);
a raised exception propagates out of the comprehension. -/
def norm_clips (conv : ℚ → ℚ) (o : PyPluginOptions) :
    List VideoClip → Except PyError (List VideoClip)
  | [] => .ok []
  | c :: cs =>
    match norm_clip conv o c with
    | .error e => .error e
    | .ok c' =>
      match norm_clips conv o cs with
      | .error e => .error e
      | .ok cs' => .ok (c' :: cs')

/-- The class-level configuration a `PyPlugin` subclass declares
(base.py lines 99-106): the options, the declared `input_per_plane`
(a single bool or a list), `output_per_plane`, and the clip-count bounds. -/
structure PyPluginCfg where
  options : PyPluginOptions := {}
  input_per_plane : Bool ⊕ List Bool := .inl true
  output_per_plane : Bool := true
  min_clips : ℤ := 1
  max_clips : ℤ := -1

/-- The state a successfully constructed `PyPlugin` instance carries. -/
structure Session where
  out_format : VideoFormat
  ref_clip : VideoClip
  clips : List VideoClip
  input_per_plane : List Bool
  output_per_plane : Bool
  is_single_plane : List Bool

/-- The declared `input_per_plane` wrapped into a list when it is a single
bool (base.py lines 148-149). -/
def initIpp0 (cfg : PyPluginCfg) : List Bool :=
  match cfg.input_per_plane with
  | .inl b => [b]
  | .inr l => l

/-- The append loop at base.py lines 151-152: repeat the last declared
entry until the list has at least `n_clips` entries.  (Appending never
changes the last entry, so the loop appends `n_clips - len` copies of the
original last entry; a declaration longer than `n_clips` is left as is.) -/
def broadcastIpp (cfg : PyPluginCfg) (n_clips : Nat) : List Bool :=
  initIpp0 cfg ++
    List.replicate (n_clips - (initIpp0 cfg).length) ((initIpp0 cfg).getLastD false)

/-- The loop at base.py lines 175-181: `zip(count(-1), (ref, *clips), flags)`
(`zip` truncates at the shortest sequence); reports the first stream whose
flag is `False` while its format is chroma-subsampled, with the reference
stream at index `-1`. -/
def checkInputSubsampling : List VideoClip → List Bool → ℤ → Option ℤ
  | c :: cs, b :: bs, idx =>
    if b = false ∧ (c.format.subsampling_w ≠ 0 ∨ c.format.subsampling_h ≠ 0) then
      some idx
    else
      checkInputSubsampling cs bs (idx + 1)
  | _, _, _ => none

/-- The validation part of `PyPlugin.__init__` after clip normalization
(base.py lines 142-181), in source order.  `ref_fmt` is the format of the
original (pre-normalization) `ref_clip` parameter: lines 156, 170 read
`ref_clip.format`, not `self.ref_clip.format`.  An empty declared
`input_per_plane` list makes `input_per_plane[-1]` (line 152) raise
`IndexError`. -/
def initChecks (cfg : PyPluginCfg) (ref_fmt : VideoFormat) (ref : VideoClip)
    (clipsN : List VideoClip) : Except PyError Session :=
  let n_clips : Nat := 1 + clipsN.length
  if (initIpp0 cfg).isEmpty then
    .error .indexErr
  else
    let ipp := broadcastIpp cfg n_clips
    let opp := if ref_fmt.num_planes = 1 then true else cfg.output_per_plane
    let is_single := (ref :: clipsN).map fun c => c.format.num_planes == 1
    if (n_clips : ℤ) < cfg.min_clips ∨
        (cfg.max_clips > 0 ∧ (n_clips : ℤ) > cfg.max_clips) then
      .error .streamCount
    else if opp = false ∧ (ref_fmt.subsampling_w ≠ 0 ∨ ref_fmt.subsampling_h ≠ 0) then
      .error .subsamplingOutput
    else
      match checkInputSubsampling (ref :: clipsN) ipp (-1) with
      | some idx => .error (.subsamplingInput idx)
      | none =>
        .ok { out_format := ref_fmt, ref_clip := ref, clips := clipsN,
              input_per_plane := ipp, output_per_plane := opp,
              is_single_plane := is_single }

/-- `PyPlugin.__init__` (base.py lines 126-181): stores the original
format as `out_format`, normalizes the reference and auxiliary clips,
then runs the broadcast and validation steps.  (The `filter_data`
constructor at lines 137-140 swallows every failure and touches no state
the claims read, so it is omitted.) -/
def init (conv : ℚ → ℚ) (cfg : PyPluginCfg) (ref_clip : VideoClip)
    (clips : List VideoClip) : Except PyError Session :=
  match norm_clip conv cfg.options ref_clip with
  | .error e => .error e
  | .ok ref =>
    match norm_clips conv cfg.options clips with
    | .error e => .error e
    | .ok clipsN => initChecks cfg ref_clip.format ref clipsN

/-! ## The `invoke` dispatch engine (base.py lines 183-267) -/

/-- CPython iterates the set literal `\x7b0, 1, 2\x7d` of base.py line 188
in ascending order: small nonnegative ints hash to themselves, so in the
8-slot hash table of this literal the elements occupy slots 0, 1, 2 and
iteration yields 0, then 1, then 2. -/
def setIter012 : List Nat := [0, 1, 2]

/-- The value `_stack_frame(frame, idx)` returns (base.py lines 187-188),
given `is_single_plane[idx]`: the sole channel-plane `frame[0]`, or the
list `[frame[p] for p in \x7b0, 1, 2\x7d]`. -/
inductive StackResult
  | single (pl : Plane)
  | multi (pls : List Plane)
deriving DecidableEq, Repr

/-- `_stack_frame` (base.py lines 187-188) at the data level. -/
def stack_frame (isSinglePlane : Bool) (frame : Frame) : StackResult :=
  if isSinglePlane then
    .single (frame.getD 0 [])
  else
    .multi (setIter012.map fun p => frame.getD p [])

/-- A symbolic description of one argument the engine passes as user-code
input: `frame[p]` of stream `stream`; the `_stack_frame` list of a
multi-plane stream; or the raw frame object of stream `stream`. -/
inductive SrcArg
  | planeView (stream p : Nat)
  | stackList (stream : Nat)
  | frameObj (stream : Nat)
deriving DecidableEq, Repr

/-- The `src` argument of one `process` call: a single object (the
no-auxiliary branches) or a list with one entry per stream. -/
inductive SrcSym
  | one (a : SrcArg)
  | listOf (args : List SrcArg)
deriving DecidableEq, Repr

/-- The `dst` argument of one `process` call: `fout[p]` or the whole
`fout` buffer. -/
inductive DstSym
  | plane (p : Nat)
  | whole
deriving DecidableEq, Repr

/-- One invocation of `self.process(fout, src, dst, plane, n)`. -/
structure Call where
  src : SrcSym
  dst : DstSym
  plane : Option Nat
  n : Nat
deriving DecidableEq, Repr

/-- One frame-fetch operation: `get_frame` or `get_frames` over `k` streams. -/
inductive FetchOp
  | one
  | many (k : Nat)
deriving DecidableEq, Repr

/-- What one evaluation of `output(n)` does, in order: the fetches issued,
the indices `_stack_frame` is applied to (in execution order, once per
entry), and the `process` calls made. -/
structure FrameTrace where
  fetches : List FetchOp
  stackOps : List Nat
  calls : List Call
deriving DecidableEq, Repr

/-- `1 + len(self.clips)`: the number of streams of a session. -/
def numStreams (s : Session) : Nat := 1 + s.clips.length

/-- The symbolic result of `_stack_frame(frames[idx], idx)`: `frame[0]`
for a single-plane stream, the 3-plane list otherwise. -/
def stackSym (s : Session) (idx : Nat) : SrcArg :=
  if s.is_single_plane.getD idx false then .planeView idx 0 else .stackList idx

/-- `inputs_data` of the per-plane-output general branch (base.py
lines 204-207): per stream, plane `p` when its flag is true, its
pre-stacked view otherwise. -/
def perPlaneSelection (s : Session) (p : Nat) : List SrcArg :=
  (List.range (numStreams s)).map fun idx =>
    if s.input_per_plane.getD idx false then .planeView idx p else stackSym s idx

/-- The six execution strategies of `invoke`, in the nesting order of the
conditionals at base.py lines 190-265. -/
inductive Strategy
  | perPlaneClips
  | perPlaneRefPerPlane
  | perPlaneRefStacked
  | mergedClips
  | mergedSinglePlane
  | mergedMultiPlane
deriving DecidableEq, Repr

/-- The branch selection of `invoke` (base.py lines 190, 191, 213, 236,
248), evaluated once per session: `self.output_per_plane`, `self.clips`
truthiness, `self._input_per_plane[0]`, and
`self.ref_clip.format.num_planes == 1`. -/
def invoke_strategy (s : Session) : Strategy :=
  if s.output_per_plane then
    if s.clips.isEmpty = false then .perPlaneClips
    else if s.input_per_plane.getD 0 false then .perPlaneRefPerPlane
    else .perPlaneRefStacked
  else
    if s.clips.isEmpty = false then .mergedClips
    else if s.ref_clip.format.num_planes = 1 then .mergedSinglePlane
    else .mergedMultiPlane

/-- The trace of one evaluation of `output(n)` for each strategy
(base.py lines 192-265).  `fout` is a copy of the reference frame, so
`fout.format.num_planes` is the normalized reference clip's plane count. -/
def invoke_trace (s : Session) (n : Nat) : FrameTrace :=
  let np := s.ref_clip.format.num_planes
  match invoke_strategy s with
  | .perPlaneClips =>
    { fetches := [.many (numStreams s)]
      stackOps := (List.range (numStreams s)).filter
        fun idx => s.input_per_plane.getD idx false = false
      calls := (List.range np).map fun p =>
        { src := .listOf (perPlaneSelection s p), dst := .plane p,
          plane := some p, n := n } }
  | .perPlaneRefPerPlane =>
    { fetches := [.one], stackOps := []
      calls := (List.range np).map fun p =>
        { src := .one (.planeView 0 p), dst := .plane p, plane := some p, n := n } }
  | .perPlaneRefStacked =>
    { fetches := [.one], stackOps := [0]
      calls := (List.range np).map fun p =>
        { src := .one (stackSym s 0), dst := .plane p, plane := some p, n := n } }
  | .mergedClips =>
    { fetches := [.many (numStreams s)]
      stackOps := List.range (numStreams s)
      calls := [{ src := .listOf ((List.range (numStreams s)).map (stackSym s)),
                  dst := .whole, plane := none, n := n }] }
  | .mergedSinglePlane =>
    { fetches := [.one], stackOps := []
      calls := [{ src := .one (.planeView 0 0), dst := .plane 0,
                  plane := some 0, n := n }] }
  | .mergedMultiPlane =>
    { fetches := [.one], stackOps := []
      calls := [{ src := .one (.frameObj 0), dst := .whole, plane := none, n := n }] }

/-- The concrete data a symbolic source argument denotes, given the
fetched frames of all streams. -/
inductive SrcData
  | mv (pl : Plane)
  | mvList (pls : List Plane)
  | frameData (fr : Frame)
deriving DecidableEq, Repr

/-- Resolve one symbolic argument against the fetched frames. -/
def resolveArg (frames : List Frame) : SrcArg → SrcData
  | .planeView i p => .mv ((frames.getD i []).getD p [])
  | .stackList i => .mvList (setIter012.map fun p => (frames.getD i []).getD p [])
  | .frameObj i => .frameData (frames.getD i [])

/-- The resolved `src` argument of one `process` call. -/
inductive SrcDataArg
  | one (d : SrcData)
  | listOf (ds : List SrcData)
deriving DecidableEq, Repr

/-- Resolve the whole `src` argument. -/
def resolveSym (frames : List Frame) : SrcSym → SrcDataArg
  | .one a => .one (resolveArg frames a)
  | .listOf l => .listOf (l.map (resolveArg frames))

/-- A user `process` function: receives the current output buffer, the
resolved inputs, the destination, the plane index and the frame index,
and returns the mutated output buffer. -/
abbrev ProcessFn := Frame → SrcDataArg → DstSym → Option Nat → Nat → Frame

/-- Thread `fout` through the successive `process` calls of a trace. -/
def runCalls (proc : ProcessFn) (frames : List Frame) :
    List Call → Frame → Frame
  | [], fout => fout
  | c :: cs, fout =>
    runCalls proc frames cs (proc fout (resolveSym frames c.src) c.dst c.plane c.n)

/-- `get_frames(self.ref_clip, *self.clips, frame_no=n)` /
`get_frame(self.ref_clip, n)`: the frames of every stream at index `n`
in stream order (the no-auxiliary branches only read entry 0). -/
def fetchFrames (s : Session) (n : Nat) : List Frame :=
  (s.ref_clip :: s.clips).map fun c => c.frames n

/-- The output frame one evaluation of `output(n)` produces, before the
`ensure_output` wrapper: `fout = frames[0].copy()` mutated by the
`process` calls of the selected strategy. -/
def invoke_body (s : Session) (proc : ProcessFn) (n : Nat) : Frame :=
  let frames := fetchFrames s n
  runCalls proc frames (invoke_trace s n).calls (frames.getD 0 [])

/-- `PyPluginOptions.ensure_output` (base.py lines 64-70) at the frame
level: convert (external `resize.Bicubic`, the `bicubic` parameter) when
`out_format.id != ref_clip.format.id`, else return the frame unchanged. -/
def ensure_output (bicubic : VideoFormat → Frame → Frame) (s : Session)
    (fr : Frame) : Frame :=
  if s.out_format ≠ s.ref_clip.format then bicubic s.out_format fr else fr

/-- The full per-frame pipeline of `invoke` under the
`@PyPluginBase.ensure_output` decorator (base.py lines 183-267). -/
def invoke_frame (bicubic : VideoFormat → Frame → Frame) (s : Session)
    (proc : ProcessFn) (n : Nat) : Frame :=
  ensure_output bicubic s (invoke_body s proc n)

/-- A user function that copies its input to its output unchanged: since
`fout` starts as a copy of the reference frame, it leaves `fout` as it is. -/
def noopProc : ProcessFn := fun fout _ _ _ _ => fout

/-! ## Concrete fixtures used by witnesses and counterexamples -/

instance {ε α : Type} [DecidableEq ε] [DecidableEq α] : DecidableEq (Except ε α) :=
  fun a b =>
    match a, b with
    | .ok x, .ok y => decidable_of_iff (x = y) (by simp)
    | .error e, .error e' => decidable_of_iff (e = e') (by simp)
    | .ok _, .error _ => isFalse (by simp)
    | .error _, .ok _ => isFalse (by simp)

/-- A 3-plane 8-bit integer format with no chroma subsampling (RGB24/YUV444P8). -/
def fmt444 : VideoFormat :=
  { sample_type := .INTEGER, bits_per_sample := 8, subsampling_w := 0,
    subsampling_h := 0, num_planes := 3 }

/-- A 3-plane 8-bit integer 4:2:0 chroma-subsampled format (YUV420P8). -/
def fmt420 : VideoFormat :=
  { sample_type := .INTEGER, bits_per_sample := 8, subsampling_w := 1,
    subsampling_h := 1, num_planes := 3 }

/-- A single-plane 8-bit integer format (GRAY8). -/
def fmtGray : VideoFormat :=
  { sample_type := .INTEGER, bits_per_sample := 8, subsampling_w := 0,
    subsampling_h := 0, num_planes := 1 }

/-- A 3-plane 32-bit float format with no chroma subsampling (YUV444PS). -/
def fmtF32 : VideoFormat :=
  { sample_type := .FLOAT, bits_per_sample := 32, subsampling_w := 0,
    subsampling_h := 0, num_planes := 3 }

/-- A single-plane 32-bit float format (GRAYS). -/
def fmtGrayF32 : VideoFormat :=
  { sample_type := .FLOAT, bits_per_sample := 32, subsampling_w := 0,
    subsampling_h := 0, num_planes := 1 }

/-- Three one-sample channel-planes, the same at every index. -/
def fr0 : Nat → Frame := fun _ => [[1], [2], [3]]

/-- One channel-plane of three samples, the same at every index. -/
def frG : Nat → Frame := fun _ => [[1, 2, 3]]

def clip444 : VideoClip := { format := fmt444, frames := fr0 }

def clip420 : VideoClip := { format := fmt420, frames := fr0 }

def clipGray : VideoClip := { format := fmtGray, frames := frG }

def clipF32 : VideoClip := { format := fmtF32, frames := fr0 }

/-- The session of spec scenario B: one reference and two auxiliary
streams, `input_per_plane=[True, False, False]`, `output_per_plane=True`,
all streams 3-plane.  It is exactly what `init` produces on those inputs. -/
def sessionB : Session :=
  { out_format := fmt444, ref_clip := clip444, clips := [clip444, clip444],
    input_per_plane := [true, false, false], output_per_plane := true,
    is_single_plane := [false, false, false] }

/-- A merged-output session with one auxiliary stream and all per-plane
flags true; what `init` produces for `output_per_plane=False` on two
3-plane non-subsampled streams. -/
def sessionD : Session :=
  { out_format := fmt444, ref_clip := clip444, clips := [clip444],
    input_per_plane := [true, true], output_per_plane := false,
    is_single_plane := [false, false] }

/-- The session `init` produces for a single-plane reference stream with
every option left at its default. -/
def sessionGray : Session :=
  { out_format := fmtGray, ref_clip := clipGray, clips := [],
    input_per_plane := [true], output_per_plane := true,
    is_single_plane := [true] }

/-- The configuration of spec scenario C with the chroma shift on:
`float_processing=32`, `shift_chroma=True`. -/
def scenarioCOn : PyPluginCfg :=
  { options := { float_processing := .fp32, shift_chroma := true } }

/-- The configuration of spec scenario C with the chroma shift off. -/
def scenarioCOff : PyPluginCfg :=
  { options := { float_processing := .fp32, shift_chroma := false } }

/-! ## Helper lemmas -/

theorem runCalls_noop (frames : List Frame) :
    ∀ (cs : List Call) (fout : Frame), runCalls noopProc frames cs fout = fout := by
  intro cs
  induction cs with
  | nil => intro fout; rfl
  | cons c cs ih => intro fout; exact ih fout

theorem norm_clip_default (conv : ℚ → ℚ) (c : VideoClip) :
    norm_clip conv {} c = .ok c := rfl

theorem norm_clips_default (conv : ℚ → ℚ) :
    ∀ cs : List VideoClip, norm_clips conv {} cs = .ok cs := by
  intro cs
  induction cs with
  | nil => rfl
  | cons c cs ih => simp [norm_clips, norm_clip_default, ih]

theorem norm_clips_ok_length (conv : ℚ → ℚ) (o : PyPluginOptions) :
    ∀ (cs l : List VideoClip), norm_clips conv o cs = .ok l → l.length = cs.length := by
  intro cs
  induction cs with
  | nil =>
    intro l h
    simp only [norm_clips] at h
    cases h
    rfl
  | cons c cs ih =>
    intro l h
    simp only [norm_clips] at h
    split at h
    · exact Except.noConfusion h
    · split at h
      · exact Except.noConfusion h
      · next cs' heq =>
        cases h
        simp [ih cs' heq]

theorem norm_clip_converted_num_planes (conv : ℚ → ℚ) (o : PyPluginOptions)
    (clip : VideoClip) :
    (norm_clip_converted conv o clip).format.num_planes = clip.format.num_planes := by
  simp only [norm_clip_converted]
  split
  · split
    · rfl
    · rfl
  · rfl

theorem norm_clip_ok_num_planes {conv : ℚ → ℚ} {o : PyPluginOptions}
    {clip clip' : VideoClip} (h : norm_clip conv o clip = .ok clip') :
    clip'.format.num_planes = clip.format.num_planes := by
  simp only [norm_clip] at h
  split at h
  · split at h
    · exact Except.noConfusion h
    · split at h
      · cases h
        exact norm_clip_converted_num_planes conv o clip
      · cases h
        exact norm_clip_converted_num_planes conv o clip
  · cases h
    exact norm_clip_converted_num_planes conv o clip

theorem checkInputSubsampling_of_all_true (cs : List VideoClip) :
    ∀ (bs : List Bool) (idx : ℤ), (∀ b ∈ bs, b = true) →
      checkInputSubsampling cs bs idx = none := by
  induction cs with
  | nil =>
    intro bs idx _
    cases bs <;> rfl
  | cons c cs ih =>
    intro bs idx hb
    cases bs with
    | nil => rfl
    | cons b bs' =>
      have : b = true := hb b (by simp)
      subst this
      simp only [checkInputSubsampling, ne_eq, Bool.true_eq_false, false_and, if_false]
      exact ih bs' _ fun x hx => hb x (by simp [hx])

theorem init_ok_inv {conv : ℚ → ℚ} {cfg : PyPluginCfg} {rc : VideoClip}
    {clips : List VideoClip} {s : Session}
    (h : init conv cfg rc clips = .ok s) :
    ∃ ref clipsN, norm_clip conv cfg.options rc = .ok ref ∧
      norm_clips conv cfg.options clips = .ok clipsN ∧
      initChecks cfg rc.format ref clipsN = .ok s := by
  unfold init at h
  split at h
  · exact Except.noConfusion h
  · next ref heq =>
    split at h
    · exact Except.noConfusion h
    · next clipsN heq2 => exact ⟨ref, clipsN, heq, heq2, h⟩

theorem initChecks_ok_inv {cfg : PyPluginCfg} {f : VideoFormat} {ref : VideoClip}
    {clipsN : List VideoClip} {s : Session}
    (h : initChecks cfg f ref clipsN = .ok s) :
    s = { out_format := f, ref_clip := ref, clips := clipsN,
          input_per_plane := broadcastIpp cfg (1 + clipsN.length),
          output_per_plane := if f.num_planes = 1 then true else cfg.output_per_plane,
          is_single_plane := (ref :: clipsN).map fun c => c.format.num_planes == 1 } := by
  simp only [initChecks] at h
  split at h
  · exact Except.noConfusion h
  · split at h
    · exact Except.noConfusion h
    · split at h
      all_goals
        rename_i hp
        split at h
        · exact Except.noConfusion h
        · split at h
          · exact Except.noConfusion h
          · cases h
            simp [hp]

/-! ## Claim theorems -/

/-- C1: for every frame buffer with 3 channel-planes, `_stack_frame` with
`is_single_plane = False` returns exactly the 3 channel-planes in
ascending stored plane order (plane 0, then plane 1, then plane 2); for a
single-plane frame it returns the sole channel-plane. -/
theorem stack_frame_plane_order (a b c : Plane) :
    stack_frame false [a, b, c] = .multi [a, b, c]
    ∧ stack_frame true [a] = .single a :=
  ⟨rfl, rfl⟩

/-- C2 counterexample: with 0 auxiliary streams and a declared
`input_per_plane` list of length 3, construction succeeds and
`_input_per_plane` keeps length 3, not `1 + 0`: the declared list is
never truncated. -/
theorem input_per_plane_length_counterexample :
    ((init id { input_per_plane := .inr [true, true, true] } clip444 []).map
        fun s => (s.input_per_plane.length, 1 + s.clips.length))
      = .ok (3, 1)
    ∧ (3 : Nat) ≠ 1 := by
  constructor
  · decide
  · decide

/-- C2 amended: for a single declared boolean, or a nonempty declared
list of length at most `1 + k`, the normalized `_input_per_plane` of a
successfully constructed session has length exactly `1 + k`, missing
entries filled by repeating the last declared entry (the broadcast shape
is `broadcastIpp`); an over-long declared list keeps its own length and
an empty list raises `IndexError`. -/
theorem input_per_plane_broadcast (conv : ℚ → ℚ) (cfg : PyPluginCfg)
    (rc : VideoClip) (clips : List VideoClip) (s : Session)
    (hdecl : match cfg.input_per_plane with
      | .inl _ => True
      | .inr l => l ≠ [] ∧ l.length ≤ 1 + clips.length)
    (h : init conv cfg rc clips = .ok s) :
    s.input_per_plane.length = 1 + s.clips.length := by
  obtain ⟨ref, clipsN, h1, h2, h3⟩ := init_ok_inv h
  have hlen := norm_clips_ok_length conv cfg.options clips clipsN h2
  have hs := initChecks_ok_inv h3
  subst hs
  simp only [broadcastIpp, List.length_append, List.length_replicate]
  have hle : (initIpp0 cfg).length ≤ 1 + clipsN.length := by
    unfold initIpp0
    cases hd : cfg.input_per_plane with
    | inl b => simp
    | inr l =>
      rw [hd] at hdecl
      exact hlen ▸ hdecl.2
  omega

/-- Witness for the amended C2: a declared list of length 2 with 2
auxiliary streams broadcasts to length 3 = 1 + 2. -/
theorem input_per_plane_broadcast_witness :
    init id { input_per_plane := .inr [true, false] } clip444 [clip444, clip444]
        = .ok sessionB
    ∧ sessionB.input_per_plane.length = 1 + sessionB.clips.length :=
  ⟨rfl, input_per_plane_broadcast id { input_per_plane := .inr [true, false] }
      clip444 [clip444, clip444] sessionB (by decide) rfl⟩

/-- C5: with a no-op user processing function, every one of the six
dispatch strategies returns the reference stream's frame at the requested
index unchanged; output-format reconciliation is a no-op because the
formats match. -/
theorem invoke_noop_roundtrip (bicubic : VideoFormat → Frame → Frame)
    (s : Session) (n : Nat) (hfmt : s.out_format = s.ref_clip.format) :
    invoke_frame bicubic s noopProc n = s.ref_clip.frames n := by
  unfold invoke_frame ensure_output invoke_body
  rw [runCalls_noop]
  simp [hfmt, fetchFrames]

/-- Witness for C5 at a concrete 3-plane session. -/
theorem invoke_noop_roundtrip_witness :
    sessionB.out_format = sessionB.ref_clip.format
    ∧ invoke_frame (fun _ fr => fr) sessionB noopProc 0 = sessionB.ref_clip.frames 0 :=
  ⟨rfl, invoke_noop_roundtrip (fun _ fr => fr) sessionB 0 rfl⟩

/-- C3: in scenario B (two auxiliary streams, all 3-plane,
`input_per_plane=[True, False, False]`, `output_per_plane=True`),
evaluating any index `n` issues one 3-stream multi-frame fetch, applies
`_stack_frame` to streams 1 and 2 exactly once each, and calls `process`
once per output channel-plane `p` with the ordered input list
`[plane p of stream 0, stacked stream 1, stacked stream 2]`. -/
theorem scenarioB_invoke (s : Session) (n : Nat)
    (hclips : s.clips.length = 2)
    (hipp : s.input_per_plane = [true, false, false])
    (hopp : s.output_per_plane = true)
    (hsp : s.is_single_plane = [false, false, false])
    (hnp : s.ref_clip.format.num_planes = 3) :
    invoke_trace s n =
      { fetches := [.many 3], stackOps := [1, 2],
        calls := [
          { src := .listOf [.planeView 0 0, .stackList 1, .stackList 2],
            dst := .plane 0, plane := some 0, n := n },
          { src := .listOf [.planeView 0 1, .stackList 1, .stackList 2],
            dst := .plane 1, plane := some 1, n := n },
          { src := .listOf [.planeView 0 2, .stackList 1, .stackList 2],
            dst := .plane 2, plane := some 2, n := n }] } := by
  have hne : s.clips.isEmpty = false := by
    cases hc : s.clips with
    | nil => rw [hc] at hclips; simp at hclips
    | cons a l => rfl
  unfold invoke_trace invoke_strategy
  rw [hopp, hne, hnp]
  simp only [if_true, if_pos rfl]
  unfold numStreams perPlaneSelection stackSym numStreams
  rw [hclips, hipp, hsp]
  rfl

/-- Witness for C3 at index 5 on the concrete scenario-B session. -/
theorem scenarioB_invoke_witness :
    invoke_trace sessionB 5 =
      { fetches := [.many 3], stackOps := [1, 2],
        calls := [
          { src := .listOf [.planeView 0 0, .stackList 1, .stackList 2],
            dst := .plane 0, plane := some 0, n := 5 },
          { src := .listOf [.planeView 0 1, .stackList 1, .stackList 2],
            dst := .plane 1, plane := some 1, n := 5 },
          { src := .listOf [.planeView 0 2, .stackList 1, .stackList 2],
            dst := .plane 2, plane := some 2, n := 5 }] } :=
  scenarioB_invoke sessionB 5 rfl rfl rfl rfl rfl

/-- C4 counterexample: a merged-output session built by `init` from two
3-plane non-subsampled streams with the default `input_per_plane=True`
(broadcast to `[True, True]`).  The single `process` call receives
`[stacked stream 0, stacked stream 1]`, while the per-plane strategies'
selection rule (`perPlaneSelection`) would pass plane `p` of stream 0 for
its true flag — the merged branch stacks every stream regardless of its
per-plane flag. -/
theorem merged_input_rule_counterexample :
    ((init id { output_per_plane := false } clip444 [clip444]).map
        fun s => ((invoke_trace s 5).calls.map Call.src, s.input_per_plane))
      = .ok ([SrcSym.listOf [.stackList 0, .stackList 1]], [true, true])
    ∧ ((init id { output_per_plane := false } clip444 [clip444]).map
        fun s => [perPlaneSelection s 0, perPlaneSelection s 1, perPlaneSelection s 2])
      = .ok [[.planeView 0 0, .planeView 1 0], [.planeView 0 1, .planeView 1 1],
             [.planeView 0 2, .planeView 1 2]]
    ∧ SrcSym.listOf [.stackList 0, .stackList 1]
        ≠ .listOf [.planeView 0 0, .planeView 1 0]
    ∧ SrcSym.listOf [.stackList 0, .stackList 1]
        ≠ .listOf [.planeView 0 1, .planeView 1 1]
    ∧ SrcSym.listOf [.stackList 0, .stackList 1]
        ≠ .listOf [.planeView 0 2, .planeView 1 2] := by
  refine ⟨by decide, by decide, by decide, by decide, by decide⟩

/-- C4 amended: for every session with `output_per_plane=False` and a
multi-plane reference format (single-plane references are forced to
per-plane output at construction), evaluating index `n` calls `process`
exactly once, with the whole output buffer and a `None` plane index; the
input is the list of every stream's stacked view (regardless of the
per-plane flags) when auxiliary streams are present, and the raw
reference frame object when none are. -/
theorem merged_output_single_call (s : Session) (n : Nat)
    (hopp : s.output_per_plane = false)
    (hnp : s.ref_clip.format.num_planes ≠ 1) :
    (invoke_trace s n).calls =
      [{ src := if s.clips.isEmpty then .one (.frameObj 0)
                else .listOf ((List.range (numStreams s)).map (stackSym s)),
         dst := .whole, plane := none, n := n }] := by
  unfold invoke_trace invoke_strategy
  rw [hopp]
  cases hc : s.clips.isEmpty <;> simp [hc, hnp]

/-- Witness for the amended C4 on the concrete merged session. -/
theorem merged_output_single_call_witness :
    (invoke_trace sessionD 7).calls =
      [{ src := .listOf [.stackList 0, .stackList 1],
         dst := .whole, plane := none, n := 7 }] :=
  merged_output_single_call sessionD 7 rfl (by decide)

/-- C6: for every chroma-subsampled 3-plane reference format,
construction with `output_per_plane=False` raises `SubsamplingError`,
and with `output_per_plane=True` (all other preconditions satisfied:
defaults, no auxiliary streams) it succeeds. -/
theorem subsampled_output_check (f : VideoFormat) (fr : Nat → Frame)
    (hsub : f.subsampling_w ≠ 0 ∨ f.subsampling_h ≠ 0)
    (hnp : f.num_planes = 3) :
    init id { output_per_plane := false } ⟨f, fr⟩ [] = .error .subsamplingOutput
    ∧ ∃ s, init id { output_per_plane := true } ⟨f, fr⟩ [] = .ok s := by
  constructor
  · show (match norm_clip id {} ⟨f, fr⟩ with
      | .error e => Except.error e
      | .ok ref =>
        match norm_clips id {} [] with
        | .error e => Except.error e
        | .ok clipsN =>
          initChecks { output_per_plane := false } f ref clipsN) = .error .subsamplingOutput
    rw [norm_clip_default]
    simp only [norm_clips]
    simp only [initChecks, initIpp0, broadcastIpp, checkInputSubsampling]
    rcases hsub with h | h <;> simp [hnp, h]
  · refine ⟨?_, ?_⟩
    · exact { out_format := f, ref_clip := ⟨f, fr⟩, clips := [],
              input_per_plane := [true], output_per_plane := true,
              is_single_plane := [f.num_planes == 1] }
    · show (match norm_clip id {} ⟨f, fr⟩ with
        | .error e => Except.error e
        | .ok ref =>
          match norm_clips id {} [] with
          | .error e => Except.error e
          | .ok clipsN =>
            initChecks { output_per_plane := true } f ref clipsN) = _
      rw [norm_clip_default]
      simp only [norm_clips]
      simp only [initChecks, initIpp0, broadcastIpp, checkInputSubsampling]
      simp [hnp]

/-- Witness for C6 at the 4:2:0 format. -/
theorem subsampled_output_check_witness :
    init id { output_per_plane := false } clip420 [] = .error .subsamplingOutput
    ∧ ∃ s, init id { output_per_plane := true } clip420 [] = .ok s :=
  subsampled_output_check fmt420 fr0 (Or.inl (by decide)) rfl

theorem initChecks_count {cfg : PyPluginCfg} {f : VideoFormat} {ref : VideoClip}
    {clipsN : List VideoClip}
    (hipp : (initIpp0 cfg).isEmpty = false)
    (hbad : ((1 + clipsN.length : Nat) : ℤ) < cfg.min_clips ∨
      (cfg.max_clips > 0 ∧ ((1 + clipsN.length : Nat) : ℤ) > cfg.max_clips)) :
    initChecks cfg f ref clipsN = .error .streamCount := by
  simp only [initChecks, hipp, Bool.false_eq_true, if_false]
  rw [if_pos hbad]

theorem initChecks_ok_of {cfg : PyPluginCfg} {f : VideoFormat} {ref : VideoClip}
    {clipsN : List VideoClip}
    (hipp : (initIpp0 cfg).isEmpty = false)
    (hcount : ¬(((1 + clipsN.length : Nat) : ℤ) < cfg.min_clips ∨
      (cfg.max_clips > 0 ∧ ((1 + clipsN.length : Nat) : ℤ) > cfg.max_clips)))
    (hout : ¬((if f.num_planes = 1 then true else cfg.output_per_plane) = false ∧
      (f.subsampling_w ≠ 0 ∨ f.subsampling_h ≠ 0)))
    (hin : checkInputSubsampling (ref :: clipsN)
      (broadcastIpp cfg (1 + clipsN.length)) (-1) = none) :
    initChecks cfg f ref clipsN =
      .ok { out_format := f, ref_clip := ref, clips := clipsN,
            input_per_plane := broadcastIpp cfg (1 + clipsN.length),
            output_per_plane := if f.num_planes = 1 then true else cfg.output_per_plane,
            is_single_plane := (ref :: clipsN).map fun c => c.format.num_planes == 1 } := by
  simp only [initChecks, hipp, Bool.false_eq_true, if_false]
  rw [if_neg hcount, if_neg hout, hin]

theorem broadcastIpp_default_mem {cfg : PyPluginCfg}
    (hd : cfg.input_per_plane = .inl true) (n : Nat) :
    ∀ b ∈ broadcastIpp cfg n, b = true := by
  intro b hb
  simp only [broadcastIpp, initIpp0, hd, List.mem_append, List.mem_singleton,
    List.mem_replicate] at hb
  rcases hb with h | h
  · exact h
  · exact h.2

/-- C7: with all other preconditions satisfied (3-plane non-subsampled
streams, default flags), construction succeeds exactly when
`min_clips ≤ 1 + k` and (`max_clips ≤ 0` or `1 + k ≤ max_clips`), and
raises `StreamCountError` when `1 + k < min_clips` or `max_clips` is
bounded and exceeded. -/
theorem stream_count_bounds (mn mx : ℤ) (k : Nat) :
    (((1 + k : ℤ) < mn ∨ (mx > 0 ∧ (1 + k : ℤ) > mx)) →
      init id { min_clips := mn, max_clips := mx } clip444 (List.replicate k clip444)
        = .error .streamCount)
    ∧ (¬((1 + k : ℤ) < mn ∨ (mx > 0 ∧ (1 + k : ℤ) > mx)) →
      ∃ s, init id { min_clips := mn, max_clips := mx } clip444 (List.replicate k clip444)
        = .ok s) := by
  have hinit : init id { min_clips := mn, max_clips := mx } clip444 (List.replicate k clip444)
      = initChecks { min_clips := mn, max_clips := mx } fmt444 clip444
          (List.replicate k clip444) := by
    show (match norm_clip id {} clip444 with
      | .error e => Except.error e
      | .ok ref =>
        match norm_clips id {} (List.replicate k clip444) with
        | .error e => Except.error e
        | .ok clipsN =>
          initChecks { min_clips := mn, max_clips := mx } clip444.format ref clipsN) = _
    rw [norm_clip_default, norm_clips_default]
    rfl
  have hcast : ((1 + (List.replicate k clip444).length : Nat) : ℤ) = 1 + (k : ℤ) := by
    simp
  constructor
  · intro hbad
    rw [hinit]
    refine initChecks_count ?_ ?_
    · rfl
    · rw [hcast]
      exact hbad
  · intro hgood
    rw [hinit]
    refine ⟨_, initChecks_ok_of ?_ ?_ ?_ ?_⟩
    · rfl
    · rw [hcast]
      exact hgood
    · simp [fmt444]
    · exact checkInputSubsampling_of_all_true _ _ _ (broadcastIpp_default_mem rfl _)

/-- Witness for C7: 1 stream with `min_clips=2` fails with
`StreamCountError`; 1 stream with the default bounds succeeds. -/
theorem stream_count_bounds_witness :
    init id { min_clips := 2, max_clips := -1 } clip444 [] = .error .streamCount
    ∧ ∃ s, init id { min_clips := 1, max_clips := -1 } clip444 [] = .ok s :=
  ⟨(stream_count_bounds 2 (-1) 0).1 (by decide),
   (stream_count_bounds 1 (-1) 0).2 (by decide)⟩

/-- C8: with `shift_chroma=True` and `float_processing` unset, `norm_clip`
raises `ConfigurationError` for every non-float clip; on a float clip it
adds 0.5 to exactly the two chroma channel-planes of a 3-plane frame,
leaves the primary plane untouched, and is a no-op for 1-plane clips. -/
theorem shift_chroma_spec (conv : ℚ → ℚ) (f : VideoFormat) (fr : Nat → Frame)
    (n : Nat) (a b c : Plane) :
    (f.sample_type ≠ .FLOAT →
      norm_clip conv { shift_chroma := true } ⟨f, fr⟩ = .error .configuration)
    ∧ (f.sample_type = .FLOAT → f.num_planes = 3 → fr n = [a, b, c] →
      ∃ clip', norm_clip conv { shift_chroma := true } ⟨f, fr⟩ = .ok clip'
        ∧ clip'.format = f
        ∧ clip'.frames n = [a, b.map (fun x => x + 1 / 2), c.map (fun x => x + 1 / 2)])
    ∧ (f.sample_type = .FLOAT → f.num_planes = 1 →
      norm_clip conv { shift_chroma := true } ⟨f, fr⟩ = .ok ⟨f, fr⟩) := by
  refine ⟨?_, ?_, ?_⟩
  · intro hf
    simp [norm_clip, FloatProcessing.truthy, hf]
  · intro hf hnp hfr
    refine ⟨⟨f, fun m => exprShiftChroma (fr m)⟩, ?_, rfl, ?_⟩
    · simp [norm_clip, norm_clip_converted, FloatProcessing.truthy, hf, hnp]
    · show exprShiftChroma (fr n) = _
      rw [hfr]
      rfl
  · intro hf hnp
    simp [norm_clip, norm_clip_converted, FloatProcessing.truthy, hf, hnp]

/-- Witness for C8: the three cases at concrete clips. -/
theorem shift_chroma_spec_witness :
    (∃ clip', norm_clip id { shift_chroma := true } clipF32 = .ok clip'
      ∧ clip'.format = fmtF32
      ∧ clip'.frames 0 = [[1], [2 + 1 / 2], [3 + 1 / 2]])
    ∧ norm_clip id { shift_chroma := true } ⟨fmtGrayF32, frG⟩ = .ok ⟨fmtGrayF32, frG⟩
    ∧ norm_clip id { shift_chroma := true } clip444 = .error .configuration := by
  refine ⟨?_, ?_, ?_⟩
  · obtain ⟨cl, h1, h2, h3⟩ :=
      (shift_chroma_spec id fmtF32 fr0 0 [1] [2] [3]).2.1 rfl rfl rfl
    exact ⟨cl, h1, h2, by rw [h3]; rfl⟩
  · exact (shift_chroma_spec id fmtGrayF32 frG 0 [] [] []).2.2 rfl rfl
  · exact (shift_chroma_spec id fmt444 fr0 0 [] [] []).1 (by decide)

/-- C9: for a 3-plane 8-bit integer reference format, construction with
`float_processing=32` and `shift_chroma=True` succeeds; the normalized
reference stream has 32-bit float samples, and its two chroma
channel-planes are offset by 0.5 relative to the same session with
`shift_chroma=False` (`conv` is the per-sample action of the external
8-bit-to-float conversion, shared by both sessions). -/
theorem scenarioC_float_shift (conv : ℚ → ℚ) (f : VideoFormat) (fr : Nat → Frame)
    (n : Nat) (a b c : Plane)
    (hst : f.sample_type = .INTEGER) (hbits8 : f.bits_per_sample = 8)
    (hnp : f.num_planes = 3)
    (hconv : (fr n).map (List.map conv) = [a, b, c]) :
    ∃ sOn sOff,
      init conv scenarioCOn ⟨f, fr⟩ [] = .ok sOn
      ∧ init conv scenarioCOff ⟨f, fr⟩ [] = .ok sOff
      ∧ sOn.ref_clip.format = f.replaceFloat 32
      ∧ sOn.ref_clip.format.sample_type = .FLOAT
      ∧ sOn.ref_clip.format.bits_per_sample = 32
      ∧ sOff.ref_clip.frames n = [a, b, c]
      ∧ sOn.ref_clip.frames n
          = [a, b.map (fun x => x + 1 / 2), c.map (fun x => x + 1 / 2)] := by
  have hnormOn : norm_clip conv scenarioCOn.options ⟨f, fr⟩
      = .ok ⟨f.replaceFloat 32, fun m => exprShiftChroma ((fr m).map (List.map conv))⟩ := by
    simp [norm_clip, norm_clip_converted, scenarioCOn, FloatProcessing.truthy,
      FloatProcessing.bps, hst, hnp]
  have hnormOff : norm_clip conv scenarioCOff.options ⟨f, fr⟩
      = .ok ⟨f.replaceFloat 32, fun m => (fr m).map (List.map conv)⟩ := by
    simp [norm_clip, norm_clip_converted, scenarioCOff, FloatProcessing.truthy,
      FloatProcessing.bps, hst]
  have hchecks : ∀ (cfg : PyPluginCfg) (ref : VideoClip),
      cfg.input_per_plane = .inl true → cfg.output_per_plane = true →
      cfg.min_clips = 1 → cfg.max_clips = -1 →
      initChecks cfg f ref [] =
        .ok { out_format := f, ref_clip := ref, clips := [],
              input_per_plane := broadcastIpp cfg 1,
              output_per_plane := if f.num_planes = 1 then true else cfg.output_per_plane,
              is_single_plane := [ref.format.num_planes == 1] } := by
    intro cfg ref hd ho hmn hmx
    refine initChecks_ok_of ?_ ?_ ?_ ?_
    · simp [initIpp0, hd]
    · simp [hmn, hmx]
    · simp [ho, hnp]
    · exact checkInputSubsampling_of_all_true _ _ _ (broadcastIpp_default_mem hd _)
  have hinitOn : init conv scenarioCOn ⟨f, fr⟩ [] =
      .ok { out_format := f,
            ref_clip := ⟨f.replaceFloat 32, fun m => exprShiftChroma ((fr m).map (List.map conv))⟩,
            clips := [], input_per_plane := broadcastIpp scenarioCOn 1,
            output_per_plane := if f.num_planes = 1 then true else true,
            is_single_plane := [(VideoFormat.replaceFloat f 32).num_planes == 1] } := by
    show (match norm_clip conv scenarioCOn.options ⟨f, fr⟩ with
      | .error e => Except.error e
      | .ok ref =>
        match norm_clips conv scenarioCOn.options [] with
        | .error e => Except.error e
        | .ok clipsN => initChecks scenarioCOn (⟨f, fr⟩ : VideoClip).format ref clipsN) = _
    rw [hnormOn]
    exact hchecks scenarioCOn _ rfl rfl rfl rfl
  have hinitOff : init conv scenarioCOff ⟨f, fr⟩ [] =
      .ok { out_format := f,
            ref_clip := ⟨f.replaceFloat 32, fun m => (fr m).map (List.map conv)⟩,
            clips := [], input_per_plane := broadcastIpp scenarioCOff 1,
            output_per_plane := if f.num_planes = 1 then true else true,
            is_single_plane := [(VideoFormat.replaceFloat f 32).num_planes == 1] } := by
    show (match norm_clip conv scenarioCOff.options ⟨f, fr⟩ with
      | .error e => Except.error e
      | .ok ref =>
        match norm_clips conv scenarioCOff.options [] with
        | .error e => Except.error e
        | .ok clipsN => initChecks scenarioCOff (⟨f, fr⟩ : VideoClip).format ref clipsN) = _
    rw [hnormOff]
    exact hchecks scenarioCOff _ rfl rfl rfl rfl
  refine ⟨_, _, hinitOn, hinitOff, rfl, rfl, rfl, ?_, ?_⟩
  · show (fr n).map (List.map conv) = [a, b, c]
    exact hconv
  · show exprShiftChroma ((fr n).map (List.map conv)) = _
    rw [hconv]
    rfl

/-- Witness for C9: 8-bit samples 0, 255, 51 under the conversion
`x / 255` land at 0, 1, 1/5; the chroma planes gain 0.5. -/
theorem scenarioC_float_shift_witness :
    ∃ sOn sOff,
      init (fun x => x / 255) scenarioCOn ⟨fmt444, fun _ => [[0], [255], [51]]⟩ [] = .ok sOn
      ∧ init (fun x => x / 255) scenarioCOff ⟨fmt444, fun _ => [[0], [255], [51]]⟩ [] = .ok sOff
      ∧ sOn.ref_clip.format = fmt444.replaceFloat 32
      ∧ sOn.ref_clip.format.sample_type = .FLOAT
      ∧ sOn.ref_clip.format.bits_per_sample = 32
      ∧ sOff.ref_clip.frames 0 = [[0], [1], [1 / 5]]
      ∧ sOn.ref_clip.frames 0
          = [[0], [1].map (fun x => x + 1 / 2), [1 / 5].map (fun x => x + 1 / 2)] :=
  scenarioC_float_shift (fun x => x / 255) fmt444 (fun _ => [[0], [255], [51]]) 0
    [0] [1] [1 / 5] rfl rfl rfl (by norm_num)

/-- C10: a single-plane reference forces `output_per_plane=True` with no
error for a declared `False` (construction is insensitive to the declared
value), so a successfully constructed session with merged output always
has a multi-plane reference and the single-plane merged dispatch branch
is never selected. -/
theorem single_plane_forces_output (conv : ℚ → ℚ) (cfg : PyPluginCfg)
    (rc : VideoClip) (clips : List VideoClip) :
    (rc.format.num_planes = 1 →
      init conv { cfg with output_per_plane := false } rc clips
        = init conv { cfg with output_per_plane := true } rc clips)
    ∧ ∀ s, init conv cfg rc clips = .ok s →
        (rc.format.num_planes = 1 → s.output_per_plane = true)
        ∧ (s.output_per_plane = false → invoke_strategy s ≠ .mergedSinglePlane) := by
  constructor
  · intro h1
    unfold init
    have heq : ∀ ref clipsN,
        initChecks { cfg with output_per_plane := false } rc.format ref clipsN
          = initChecks { cfg with output_per_plane := true } rc.format ref clipsN := by
      intro ref clipsN
      simp [initChecks, initIpp0, broadcastIpp, h1]
    simp only [heq]
  · intro s hs
    obtain ⟨ref, clipsN, h1, h2, h3⟩ := init_ok_inv hs
    have hplane := norm_clip_ok_num_planes h1
    have hrec := initChecks_ok_inv h3
    constructor
    · intro hn
      rw [hrec]
      simp [hn]
    · intro hopp
      have hne : rc.format.num_planes ≠ 1 := by
        intro hn
        rw [hrec] at hopp
        simp [hn] at hopp
      have hne' : s.ref_clip.format.num_planes ≠ 1 := by
        rw [hrec]
        show ref.format.num_planes ≠ 1
        rw [hplane]
        exact hne
      intro hstrat
      unfold invoke_strategy at hstrat
      rw [hopp] at hstrat
      simp only [Bool.false_eq_true, if_false] at hstrat
      rcases hc : s.clips.isEmpty with _ | _ <;> rw [hc] at hstrat <;>
        simp [hne'] at hstrat

/-- Witness for C10: a 1-plane reference built with a declared
`output_per_plane=False` equals the `True` build; the constructed
single-plane session has per-plane output; and a merged-output session
selects a strategy other than the single-plane merged branch. -/
theorem single_plane_forces_output_witness :
    (init id { output_per_plane := false } clipGray []
      = init id { output_per_plane := true } clipGray [])
    ∧ sessionGray.output_per_plane = true
    ∧ invoke_strategy sessionD ≠ .mergedSinglePlane :=
  ⟨(single_plane_forces_output id {} clipGray []).1 rfl,
   ((single_plane_forces_output id {} clipGray []).2 sessionGray rfl).1 rfl,
   ((single_plane_forces_output id { output_per_plane := false } clip444 [clip444]).2
      sessionD rfl).2 rfl⟩

end VsPyPlugin
